import Mathlib

/-!
Shallow embedding of the conversation core of the gmail-assistant repository
(src/backend/conversation_ai.py, src/backend/voice_handler.py,
src/backend/mcp_serve.py).

Conventions of the embedding:
* Python strings are Lean `String`; the Python substring test `kw in s` is
  `strContains s kw`; `s.lower()` is `pyLower` (ASCII lowering over the character list, agreeing with CPython on the ASCII keyword tests the source makes).
* Collaborator calls (OpenAI chat completions, the MCP client's tool calls)
  are modelled by their outcomes, supplied in an `Env` record per turn:
  `Except.ok t` is a normal return of text `t`, `Except.error e` is a raised
  exception with message `e`.  (The `MCPClient` class conversation_ai.py
  imports from mcp_serve is not present in the repository's files; the
  conversation layer only consumes the outcomes of its calls.)
* Handlers return the mutated conversation state (Python mutates
  `self.conversation_state` in place, so mutations made before an exception
  persist), an `Except String Directive` (`.error` means a Python exception
  escaped the handler up to `process_user_input`'s top-level except), and the
  list of MCP tool calls the turn issued, in order.
-/

namespace GmailAssistant

/-- Python `s.lower()`: character-wise lowering.  `Char.toLower` lowers the
ASCII range, which is all the source's keyword matching relies on. -/
def pyLower (s : String) : String := ⟨s.data.map Char.toLower⟩

/-- Python substring test, the expression `sub in s` on strings. -/
def strContains (s sub : String) : Bool := decide (sub.data <:+: s.data)

/-- Python `any(keyword in s for keyword in ks)`. -/
def anyKeyword (s : String) (ks : List String) : Bool :=
  ks.any (fun k => strContains s k)

/-- The fields of the analyzed-email record the conversation layer touches
(`current_email["email"]` with keys sender, subject, body). -/
structure EmailRec where
  sender : String
  subject : String
  body : String
  deriving DecidableEq

/-- The directive dictionary every handler of ConversationAI returns:
response_text, action, tts_text. -/
structure Directive where
  response_text : String
  action : String
  tts_text : String
  deriving DecidableEq

/-- `ConversationAI.conversation_state`: `mode` is a plain string in the
source ("greeting", "email_reading", "responding", "general"); `context`
holds at most the `responding_to` email; `conversation_history` is the
append-only (role, content) list. -/
structure ConvState where
  mode : String
  responding_to : Option EmailRec
  history : List (String × String)
  deriving DecidableEq

/-- Result dictionary of `MCPClient.get_current_email` as the email-reading
handler consumes it: a truthy `success` flag, and the `email` value when the
key is present.  `success = true` with `email = none` models a dictionary
missing the "email" key, whose access raises KeyError. -/
structure CurrentEmailResult where
  success : Bool
  email : Option EmailRec
  deriving DecidableEq

/-- One MCP mailbox call issued by the conversation layer during a turn.
There is no read-full variant: conversation_ai.py never calls the
read_full_current_email tool. -/
inductive MCall where
  | initCreds
  | getEmails
  | getCurrent
  | nextEmail
  | sendReply (recipient subject body : String)
  | calendar
  deriving DecidableEq

/-- Outcomes of every collaborator call a single turn could make:
the three OpenAI completions (greeting intent, reply composition, general
chat) and the MCP client tools the handlers use. -/
structure Env where
  greetingLLM : Except String String
  credResult : Except String String
  getEmailsResult : Except String String
  currentEmailResult : Except String CurrentEmailResult
  nextResult : Except String String
  composeLLM : Except String String
  sendReplyResult : Except String String
  calendarResult : Except String String
  generalLLM : Except String String

/-- Email-intent keywords shared by the greeting and general handlers. -/
def emailKeywords : List String := ["email", "emails", "read email", "check email"]

def calendarKeywords : List String := ["calendar", "schedule", "appointments"]

def taskKeywords : List String := ["task", "tasks", "todo"]

def farewellKeywords : List String := ["goodbye", "bye", "done", "thank you", "thanks"]

def nextKeywords : List String := ["next", "skip", "continue"]

def stopKeywords : List String := ["stop", "done", "enough"]

/-- A directive whose response_text and tts_text coincide. -/
def mkDirective (t a : String) : Directive := ⟨t, a, t⟩

/-- The closed action enum of the spec's TurnDirective. -/
def actionEnum : List String :=
  ["continue", "start_email_reading", "read_next_email", "continue_reading",
   "wait_for_response_content", "end_call"]

/-- The canned directive of `_handle_greeting_mode`'s except branch. -/
def greetingFallback : Directive :=
  { response_text := "Hello! I'm your email assistant. How can I help you today? You can ask me to read your emails, check your calendar, or manage tasks.",
    action := "continue",
    tts_text := "Hello! I'm your email assistant. How can I help you today?" }

/-- `ConversationAI._handle_greeting_mode`.  The OpenAI call comes first; if
it raises, the handler's except returns the fallback with nothing mutated and
no mailbox call made.  On the email-keyword branch the mode is set to
email_reading before initialize_creds and get_emails run, so that mutation
persists even when one of those calls raises into the except branch. -/
def handle_greeting_mode (env : Env) (st : ConvState) (u : String) :
    ConvState × Directive × List MCall :=
  match env.greetingLLM with
  | .error _ => (st, greetingFallback, [])
  | .ok aiResponse =>
    if anyKeyword (pyLower u) emailKeywords then
      let st := { st with mode := "email_reading" }
      match env.credResult with
      | .error _ => (st, greetingFallback, [.initCreds])
      | .ok _ =>
        match env.getEmailsResult with
        | .error _ => (st, greetingFallback, [.initCreds, .getEmails])
        | .ok emailResult =>
          let t := "Sure! Let me check your emails. " ++ emailResult ++ ". I'll start reading them one by one. You can say 'respond' during any email if you'd like to reply to it."
          (st, { response_text := t, action := "start_email_reading", tts_text := t },
           [.initCreds, .getEmails])
    else
      (st, { response_text := aiResponse, action := "continue", tts_text := aiResponse }, [])

/-- `ConversationAI._handle_email_reading_mode`.  No try/except of its own:
a raising mailbox call propagates (`.error`), with the mutations already made
(mode := responding happens before get_current_email) kept. -/
def handle_email_reading_mode (env : Env) (st : ConvState) (u : String) :
    ConvState × Except String Directive × List MCall :=
  let ul := (pyLower u)
  if strContains ul "respond" || strContains ul "reply" then
    let st := { st with mode := "responding" }
    match env.currentEmailResult with
    | .error e => (st, .error e, [.getCurrent])
    | .ok cur =>
      if cur.success then
        match cur.email with
        | none => (st, .error "KeyError: 'email'", [.getCurrent])
        | some em =>
          ({ st with responding_to := some em },
           .ok (mkDirective "What would you like me to say in your response?"
                  "wait_for_response_content"),
           [.getCurrent])
      else
        (st,
         .ok (mkDirective "I couldn't get the current email details. Let me continue reading."
                "continue_reading"),
         [.getCurrent])
  else if anyKeyword ul nextKeywords then
    match env.nextResult with
    | .error e => (st, .error e, [.nextEmail])
    | .ok nextResult =>
      if strContains nextResult "No more emails" then
        ({ st with mode := "general" },
         .ok (mkDirective "That's all your emails! Is there anything else I can help you with?"
                "continue_reading"),
         [.nextEmail])
      else
        (st,
         .ok (mkDirective (nextResult ++ ". Moving to the next email.") "read_next_email"),
         [.nextEmail])
  else if anyKeyword ul stopKeywords then
    ({ st with mode := "general" },
     .ok (mkDirective "Okay, I've stopped reading emails. Is there anything else I can help you with?"
            "continue_reading"),
     [])
  else
    (st,
     .ok (mkDirective "I'll continue reading. Say 'next' to skip to the next email, or 'respond' if you'd like to reply to this one."
            "continue_reading"),
     [])

/-- `ConversationAI._handle_responding_mode`.  The composed OpenAI text, not
the caller's utterance, is what send_email_reply gets as body; the
responding_to context entry is never removed.  The except branch (compose or
send raising) falls back to email_reading mode without sending. -/
def handle_responding_mode (env : Env) (st : ConvState) (_u : String) :
    ConvState × Directive × List MCall :=
  match st.responding_to with
  | none =>
    ({ st with mode := "email_reading" },
     { response_text := "I lost track of which email you wanted to respond to. Let me continue reading emails.",
       action := "continue_reading",
       tts_text := "Let me continue reading emails." }, [])
  | some target =>
    match env.composeLLM with
    | .error _ =>
      ({ st with mode := "email_reading" },
       { response_text := "I had trouble sending that response. Let me continue reading emails.",
         action := "continue_reading",
         tts_text := "I had trouble sending that response. Let me continue reading emails." }, [])
    | .ok composed =>
      let sendCall := MCall.sendReply target.sender ("Re: " ++ target.subject) composed
      match env.sendReplyResult with
      | .error _ =>
        ({ st with mode := "email_reading" },
         { response_text := "I had trouble sending that response. Let me continue reading emails.",
           action := "continue_reading",
           tts_text := "I had trouble sending that response. Let me continue reading emails." },
         [sendCall])
      | .ok replyResult =>
        ({ st with mode := "email_reading" },
         { response_text := "I've sent your reply: " ++ composed ++ ". " ++ replyResult ++ ". Would you like me to continue reading more emails?",
           action := "continue_reading",
           tts_text := "I've sent your reply. Would you like me to continue reading more emails?" },
         [sendCall])

/-- The canned line of `_handle_general_mode`'s bare except around the OpenAI
call. -/
def generalFallbackText : String :=
  "I can help you with reading emails, checking your calendar, or managing tasks. What would you like to do?"

/-- `ConversationAI._handle_general_mode`.  Email keywords switch the mode to
greeting and recurse into the greeting handler; the calendar branch's mailbox
call is not wrapped in a local try, so its exception propagates. -/
def handle_general_mode (env : Env) (st : ConvState) (u : String) :
    ConvState × Except String Directive × List MCall :=
  let ul := (pyLower u)
  if anyKeyword ul emailKeywords then
    let st := { st with mode := "greeting" }
    let r := handle_greeting_mode env st u
    (r.1, .ok r.2.1, r.2.2)
  else if anyKeyword ul calendarKeywords then
    match env.calendarResult with
    | .error e => (st, .error e, [.calendar])
    | .ok calendarResult => (st, .ok (mkDirective calendarResult "continue"), [.calendar])
  else if anyKeyword ul taskKeywords then
    (st, .ok (mkDirective "I can help you create tasks. What task would you like me to add?" "continue"), [])
  else if anyKeyword ul farewellKeywords then
    (st, .ok (mkDirective "You're welcome! Have a great day. Goodbye!" "end_call"), [])
  else
    match env.generalLLM with
    | .error _ => (st, .ok (mkDirective generalFallbackText "continue"), [])
    | .ok t => (st, .ok (mkDirective t "continue"), [])

/-- The directive `process_user_input`'s top-level except builds from a caught
exception's message. -/
def errorDirective (e : String) : Directive :=
  { response_text := "I'm sorry, I encountered an error: " ++ e ++ ". Could you please try again?",
    action := "continue",
    tts_text := "I'm sorry, I encountered an error. Could you please try again?" }

/-- The mode dispatch inside `process_user_input`'s try block: anything other
than the three named modes falls to the general handler. -/
def dispatch_mode (env : Env) (st : ConvState) (u : String) :
    ConvState × Except String Directive × List MCall :=
  if st.mode = "greeting" then
    let g := handle_greeting_mode env st u
    (g.1, .ok g.2.1, g.2.2)
  else if st.mode = "email_reading" then
    handle_email_reading_mode env st u
  else if st.mode = "responding" then
    let g := handle_responding_mode env st u
    (g.1, .ok g.2.1, g.2.2)
  else
    handle_general_mode env st u

/-- `ConversationAI.process_user_input`: append the utterance to the history,
dispatch on the mode string, and convert any escaped exception into the
apology directive, with the mutations made so far kept. -/
def process_user_input (env : Env) (st : ConvState) (u : String) :
    ConvState × Directive × List MCall :=
  let r := dispatch_mode env { st with history := st.history ++ [("user", u)] } u
  match r.2.1 with
  | .ok d => (r.1, d, r.2.2)
  | .error e => (r.1, errorDirective e, r.2.2)

/-! VoiceHandler (src/backend/voice_handler.py): the per-call session
registry `conversation_sessions`, keyed by the Twilio CallSid.  A session's
value is the ConversationAI conversation state; Python stores object
references, so a turn's in-place mutation is what the dictionary holds
afterwards.  Note on the turn endpoint: `process_user_input` there does
`await conversation_ai.process_user_input(...)` although
`ConversationAI.process_user_input` is a plain synchronous method — the call
itself runs to completion first (mutating the session and the mailbox), then
awaiting the returned dictionary raises TypeError, which the surrounding
except turns into the apology-and-redirect TwiML.  The action dispatch
(including the end_call session cleanup) is therefore unreachable on this
path; sessions are destroyed by `handle_call_status` on a terminal status. -/

/-- The session registry: CallSid to conversation state. -/
def Registry := String → Option ConvState

/-- The fresh `ConversationAI(...)` conversation_state. -/
def initialConvState : ConvState :=
  { mode := "greeting", responding_to := none, history := [] }

def registryInsert (reg : Registry) (sid : String) (s : ConvState) : Registry :=
  fun k => if k = sid then some s else reg k

def registryRemove (reg : Registry) (sid : String) : Registry :=
  fun k => if k = sid then none else reg k

/-- Registry effect of `VoiceHandler.handle_greeting`: create the session on
first contact, leave an existing one untouched. -/
def handle_greeting_registry (reg : Registry) (sid : String) : Registry :=
  match reg sid with
  | some _ => reg
  | none => registryInsert reg sid initialConvState

/-- What the turn endpoint renders, as far as the registry claims need it. -/
inductive VHOutcome where
  /-- CallSid not in the registry: say the conversation was lost and redirect
  to the greeting endpoint. -/
  | sessionMiss
  /-- Session found: the ConversationAI turn ran (mutating the session), then
  awaiting its plain dictionary result raised TypeError into the except
  branch (apology, redirect to greeting). -/
  | turnError
  deriving DecidableEq

/-- `VoiceHandler.process_user_input`'s effect on the registry and its
outcome class. -/
def vh_process_user_input (env : Env) (reg : Registry) (sid : String) (u : String) :
    Registry × VHOutcome :=
  match reg sid with
  | none => (reg, .sessionMiss)
  | some st => (registryInsert reg sid (process_user_input env st u).1, .turnError)

/-- Call statuses on which `handle_call_status` destroys the session. -/
def terminalStatuses : List String := ["completed", "failed", "busy", "no-answer"]

/-- `VoiceHandler.handle_call_status`: on a terminal status, a present
session is deleted (the attempted `__aexit__` raises AttributeError, which
the inner except swallows before the del). -/
def handle_call_status (reg : Registry) (sid : String) (status : String) : Registry :=
  if status ∈ terminalStatuses ∧ (reg sid).isSome then registryRemove reg sid else reg

/-! mcp_serve.py: the per-user `UserSession` and the tool implementation
functions.  `GmailAssistant()` construction and `analyze_inbox` are the
backend effects; their outcomes are supplied by an `MCPOracle`. -/

/-- An analyzed email as mcp_serve consumes it: the raw fields it reads plus
the analysis importance level. -/
structure AnalyzedEmail where
  sender : String
  subject : String
  body : String
  importance_level : String
  deriving DecidableEq

/-- `UserSession`: gmail_assistant is whether the assistant object was
constructed, gmail_emails the stored listing, current_email_index the
cursor. -/
structure MCPSession where
  gmail_assistant : Bool
  gmail_emails : Option (List AnalyzedEmail)
  current_email_index : Nat
  deriving DecidableEq

/-- A freshly created `UserSession(user_id)`. -/
def newMCPSession : MCPSession :=
  { gmail_assistant := false, gmail_emails := none, current_email_index := 0 }

/-- Outcomes of the Gmail-backend effects a tool call can trigger. -/
structure MCPOracle where
  assistantInit : Except String Unit
  analyzed : Except String (List AnalyzedEmail)

/-- `initialize_creds_impl`: construct GmailAssistant; a constructor
exception is caught and reported in band, leaving the session unchanged. -/
def initialize_creds_impl (o : MCPOracle) (uid : String) (s : MCPSession) :
    MCPSession × String :=
  match o.assistantInit with
  | .ok _ =>
    ({ s with gmail_assistant := true },
     "✅ Gmail credentials initialized successfully for user " ++ uid)
  | .error e =>
    (s, "❌ Error initializing credentials for user " ++ uid ++ ": " ++ e)

/-- `get_emails_impl`: require credentials, analyze the inbox (outcome from
the oracle; max_emails only parameterizes that call), and on a non-empty
result store the listing and reset the cursor to 0.  An empty result or an
exception leaves the stored listing and cursor untouched. -/
def get_emails_impl (o : MCPOracle) (uid : String) (s : MCPSession) :
    MCPSession × String :=
  if s.gmail_assistant = false then
    (s, "❌ Please initialize credentials first")
  else
    match o.analyzed with
    | .error e => (s, "❌ Error getting emails for user " ++ uid ++ ": " ++ e)
    | .ok [] => (s, "📭 No emails found in your inbox.")
    | .ok es =>
      let high := (es.filter (fun e => e.importance_level = "HIGH")).length
      let medium := (es.filter (fun e => e.importance_level = "MEDIUM")).length
      let low := (es.filter (fun e => e.importance_level = "LOW")).length
      ({ s with gmail_emails := some es, current_email_index := 0 },
       "📧 Found " ++ toString es.length ++ " emails: " ++ toString high ++
         " high priority, " ++ toString medium ++ " medium priority, " ++
         toString low ++ " low priority")

/-- `sender.split('<')[0].strip()`, falling back to the raw sender when the
stripped head is empty. -/
def cleanSender (sender : String) : String :=
  let head := ((sender.splitOn "<").headD sender).trim
  if head = "" then sender else head

/-- `get_current_email_for_reading_impl`: present the current subject.  The
Python truthiness test `if not session.gmail_emails` treats an empty stored
list like None.  No state change. -/
def get_current_email_for_reading_impl (uid : String) (s : MCPSession) :
    MCPSession × String :=
  match s.gmail_emails with
  | none | some [] => (s, "Sorry, no emails loaded. Please get emails first.")
  | some es =>
    if h : s.current_email_index < es.length then
      let email := es.get ⟨s.current_email_index, h⟩
      let importanceText :=
        if email.importance_level = "HIGH" then "high priority"
        else if email.importance_level = "MEDIUM" then "medium priority"
        else if email.importance_level = "LOW" then "low priority"
        else "normal priority"
      (s, "Email " ++ toString (s.current_email_index + 1) ++ " of " ++
            toString es.length ++ ". This is a " ++ importanceText ++
            " email from " ++ cleanSender email.sender ++ ". Subject: " ++
            email.subject ++
            ". Would you like me to read this email or skip to the next one?")
    else
      (s, "Sorry, no more emails to read.")

/-- Python `body[:1200]`, slicing by code points. -/
def pySlice1200 (s : String) : String := ⟨s.data.take 1200⟩

/-- `read_full_current_email_impl`: the body is cut at 1200 characters; a
longer body gets the continues notice, a shorter one the standard
respond-or-next prompt.  No state change. -/
def read_full_current_email_impl (uid : String) (s : MCPSession) :
    MCPSession × String :=
  match s.gmail_emails with
  | none | some [] => (s, "Sorry, no emails loaded. Please get emails first.")
  | some es =>
    if h : s.current_email_index < es.length then
      let email := es.get ⟨s.current_email_index, h⟩
      let fullContent := pySlice1200 email.body
      if email.body.length > 1200 then
        (s, fullContent ++ " ... email content continues. Say 'respond' to reply or 'next' for the next email.")
      else
        (s, fullContent ++ " Say 'respond' to reply to this email or 'next' for the next email.")
    else
      (s, "Sorry, no more emails to read.")

/-- `next_email_impl`: with a loaded (non-empty, by Python truthiness)
listing the cursor is incremented unconditionally; past the end the
exhaustion text is reported, the incremented cursor kept. -/
def next_email_impl (uid : String) (s : MCPSession) : MCPSession × String :=
  match s.gmail_emails with
  | none | some [] => (s, "No emails loaded")
  | some es =>
    let s := { s with current_email_index := s.current_email_index + 1 }
    if s.current_email_index ≥ es.length then
      (s, "No more emails to read")
    else
      (s, "Moved to email " ++ toString (s.current_email_index + 1) ++ " of " ++
            toString es.length)

/-- `send_email_reply_impl`: requires credentials; the actual send is a TODO
in the source, so the confirmation text is deterministic.  No state
change. -/
def send_email_reply_impl (uid recipient subject body : String) (s : MCPSession) :
    MCPSession × String :=
  if s.gmail_assistant = false then
    (s, "❌ Please initialize credentials first")
  else
    (s, "✅ Email reply sent to " ++ recipient ++ " with subject: " ++ subject)

/-- `get_calendar_events_impl` (stub in the source). -/
def get_calendar_events_impl (uid : String) (days : Nat) (s : MCPSession) :
    MCPSession × String :=
  (s, "📅 Calendar events retrieved for user " ++ uid ++ " (next " ++
        toString days ++ " days)")

/-- `create_task_impl` (stub in the source). -/
def create_task_impl (uid title description : String) (s : MCPSession) :
    MCPSession × String :=
  (s, "✅ Task '" ++ title ++ "' created for user " ++ uid)

/-- The closed set of tools the MCP HTTP interface routes. -/
inductive MCPTool where
  | initCreds
  | getEmails
  | getCurrentReading
  | readFull
  | nextEmail
  | sendReply (recipient subject body : String)
  | calendar (days : Nat)
  | createTask (title description : String)
  deriving DecidableEq

/-- One tool call against a user's MCP session. -/
def mcpStep (t : MCPTool) (o : MCPOracle) (uid : String) (s : MCPSession) :
    MCPSession × String :=
  match t with
  | .initCreds => initialize_creds_impl o uid s
  | .getEmails => get_emails_impl o uid s
  | .getCurrentReading => get_current_email_for_reading_impl uid s
  | .readFull => read_full_current_email_impl uid s
  | .nextEmail => next_email_impl uid s
  | .sendReply r su b => send_email_reply_impl uid r su b s
  | .calendar d => get_calendar_events_impl uid d s
  | .createTask ti d => create_task_impl uid ti d s

/-! Concrete fixtures used by the closed witness and counterexample
theorems below. -/

def sampleEmail : EmailRec :=
  { sender := "alice@example.com", subject := "Meeting", body := "Can you come at noon?" }

/-- A turn environment in which every collaborator call returns normally with
non-empty text. -/
def sampleEnv : Env :=
  { greetingLLM := .ok "Happy to help!",
    credResult := .ok "creds ok",
    getEmailsResult := .ok "Found 2 emails",
    currentEmailResult := .ok { success := true, email := some sampleEmail },
    nextResult := .ok "Moved to email 2 of 5",
    composeLLM := .ok "Composed professional reply",
    sendReplyResult := .ok "reply confirmation",
    calendarResult := .ok "calendar text",
    generalLLM := .ok "general chat reply" }

def emailReadingState : ConvState :=
  { mode := "email_reading", responding_to := none, history := [] }

def respondingState : ConvState :=
  { mode := "responding", responding_to := some sampleEmail, history := [] }

def generalState : ConvState :=
  { mode := "general", responding_to := none, history := [] }

/-- A registry holding one session, for call sid "abc". -/
def reg1 : Registry := registryInsert (fun _ => none) "abc" initialConvState

def mcpEmails : List AnalyzedEmail :=
  [{ sender := "alice <a@x.com>", subject := "Meeting", body := "short body",
     importance_level := "HIGH" },
   { sender := "bob@x.com", subject := "Hi", body := "second body",
     importance_level := "LOW" }]

def mcpLoaded : MCPSession :=
  { gmail_assistant := true, gmail_emails := some mcpEmails, current_email_index := 0 }

def mcpOracle1 : MCPOracle := { assistantInit := .ok (), analyzed := .ok mcpEmails }

/-! Helper lemmas. -/

theorem append_ne_empty_right (a b : String) (h : b ≠ "") : a ++ b ≠ "" := by
  intro hab
  apply h
  have hd : (a ++ b).data = [] := by rw [hab]
  rw [String.data_append] at hd
  exact String.ext (List.append_eq_nil.mp hd).2

theorem greeting_directive_ok (env : Env) (st : ConvState) (u : String)
    (hg : ∀ s, env.greetingLLM = Except.ok s → s ≠ "") :
    (handle_greeting_mode env st u).2.1.tts_text ≠ "" ∧
    (handle_greeting_mode env st u).2.1.action ∈ actionEnum := by
  rcases hG : env.greetingLLM with e | a
  · simp only [handle_greeting_mode, hG]
    exact ⟨by decide, by decide⟩
  · cases hk : anyKeyword (pyLower u) emailKeywords with
    | true =>
      rcases hC : env.credResult with c | c
      · simp only [handle_greeting_mode, hG, hk, if_true, hC]
        exact ⟨by decide, by decide⟩
      · rcases hE : env.getEmailsResult with s | s
        · simp only [handle_greeting_mode, hG, hk, if_true, hC, hE]
          exact ⟨by decide, by decide⟩
        · simp only [handle_greeting_mode, hG, hk, if_true, hC, hE]
          exact ⟨append_ne_empty_right _ _ (by decide), by decide⟩
    | false =>
      refine ⟨?_, ?_⟩
      · simp [handle_greeting_mode, hG, hk]
        exact hg a hG
      · simp [handle_greeting_mode, hG, hk, actionEnum]

theorem email_reading_directive_ok (env : Env) (st : ConvState) (u : String)
    (d : Directive) (h : (handle_email_reading_mode env st u).2.1 = Except.ok d) :
    d.tts_text ≠ "" ∧ d.action ∈ actionEnum := by
  cases hresp : (strContains (pyLower u) "respond" || strContains (pyLower u) "reply") with
  | true =>
    rcases hC : env.currentEmailResult with e | cur
    · simp [handle_email_reading_mode, hresp, hC] at h
    · cases hs : cur.success with
      | true =>
        rcases hE : cur.email with _ | em
        · simp [handle_email_reading_mode, hresp, hC, hs, hE] at h
        · simp [handle_email_reading_mode, hresp, hC, hs, hE] at h
          subst h
          exact ⟨by decide, by decide⟩
      | false =>
        simp [handle_email_reading_mode, hresp, hC, hs] at h
        subst h
        exact ⟨by decide, by decide⟩
  | false =>
    cases hnext : anyKeyword (pyLower u) nextKeywords with
    | true =>
      rcases hN : env.nextResult with e | s
      · simp [handle_email_reading_mode, hresp, hnext, hN] at h
      · cases hNo : strContains s "No more emails" with
        | true =>
          simp [handle_email_reading_mode, hresp, hnext, hN, hNo] at h
          subst h
          exact ⟨by decide, by decide⟩
        | false =>
          simp [handle_email_reading_mode, hresp, hnext, hN, hNo] at h
          subst h
          exact ⟨append_ne_empty_right _ _ (by decide),
                 show ("read_next_email" : String) ∈ actionEnum by decide⟩
    | false =>
      cases hstop : anyKeyword (pyLower u) stopKeywords with
      | true =>
        simp [handle_email_reading_mode, hresp, hnext, hstop] at h
        subst h
        exact ⟨by decide, by decide⟩
      | false =>
        simp [handle_email_reading_mode, hresp, hnext, hstop] at h
        subst h
        exact ⟨by decide, by decide⟩

theorem responding_directive_ok (env : Env) (st : ConvState) (u : String) :
    (handle_responding_mode env st u).2.1.tts_text ≠ "" ∧
    (handle_responding_mode env st u).2.1.action ∈ actionEnum := by
  rcases hR : st.responding_to with _ | target
  · simp only [handle_responding_mode, hR]
    exact ⟨by decide, by decide⟩
  · rcases hC : env.composeLLM with c | c
    · simp only [handle_responding_mode, hR, hC]
      exact ⟨by decide, by decide⟩
    · rcases hS : env.sendReplyResult with r | r
      · simp only [handle_responding_mode, hR, hC, hS]
        exact ⟨by decide, by decide⟩
      · simp only [handle_responding_mode, hR, hC, hS]
        exact ⟨by decide, by decide⟩

theorem general_directive_ok (env : Env) (st : ConvState) (u : String)
    (d : Directive)
    (hg : ∀ s, env.greetingLLM = Except.ok s → s ≠ "")
    (hgen : ∀ s, env.generalLLM = Except.ok s → s ≠ "")
    (hcal : ∀ s, env.calendarResult = Except.ok s → s ≠ "")
    (h : (handle_general_mode env st u).2.1 = Except.ok d) :
    d.tts_text ≠ "" ∧ d.action ∈ actionEnum := by
  cases hk : anyKeyword (pyLower u) emailKeywords with
  | true =>
    simp [handle_general_mode, hk] at h
    subst h
    exact greeting_directive_ok env _ u hg
  | false =>
    cases hck : anyKeyword (pyLower u) calendarKeywords with
    | true =>
      rcases hC : env.calendarResult with e | c
      · simp [handle_general_mode, hk, hck, hC] at h
      · simp [handle_general_mode, hk, hck, hC] at h
        subst h
        exact ⟨hcal c hC, show ("continue" : String) ∈ actionEnum by decide⟩
    | false =>
      cases htk : anyKeyword (pyLower u) taskKeywords with
      | true =>
        simp [handle_general_mode, hk, hck, htk] at h
        subst h
        exact ⟨by decide, by decide⟩
      | false =>
        cases hfk : anyKeyword (pyLower u) farewellKeywords with
        | true =>
          simp [handle_general_mode, hk, hck, htk, hfk] at h
          subst h
          exact ⟨by decide, by decide⟩
        | false =>
          rcases hG2 : env.generalLLM with e | t
          · simp [handle_general_mode, hk, hck, htk, hfk, hG2] at h
            subst h
            exact ⟨by decide, by decide⟩
          · simp [handle_general_mode, hk, hck, htk, hfk, hG2] at h
            subst h
            exact ⟨hgen t hG2, show ("continue" : String) ∈ actionEnum by decide⟩

theorem dispatch_directive_ok (env : Env) (st : ConvState) (u : String)
    (d : Directive)
    (hg : ∀ s, env.greetingLLM = Except.ok s → s ≠ "")
    (hgen : ∀ s, env.generalLLM = Except.ok s → s ≠ "")
    (hcal : ∀ s, env.calendarResult = Except.ok s → s ≠ "")
    (h : (dispatch_mode env st u).2.1 = Except.ok d) :
    d.tts_text ≠ "" ∧ d.action ∈ actionEnum := by
  by_cases h1 : st.mode = "greeting"
  · simp [dispatch_mode, h1] at h
    subst h
    exact greeting_directive_ok env st u hg
  · by_cases h2 : st.mode = "email_reading"
    · simp [dispatch_mode, h1, h2] at h
      exact email_reading_directive_ok env st u d h
    · by_cases h3 : st.mode = "responding"
      · simp [dispatch_mode, h1, h2, h3] at h
        subst h
        exact responding_directive_ok env st u
      · simp [dispatch_mode, h1, h2, h3] at h
        exact general_directive_ok env st u d hg hgen hcal h

theorem greeting_action_ok (env : Env) (st : ConvState) (u : String) :
    (handle_greeting_mode env st u).2.1.action ∈ actionEnum := by
  rcases hG : env.greetingLLM with e | a
  · simp only [handle_greeting_mode, hG]
    decide
  · cases hk : anyKeyword (pyLower u) emailKeywords with
    | true =>
      rcases hC : env.credResult with c | c
      · simp only [handle_greeting_mode, hG, hk, if_true, hC]
        decide
      · rcases hE : env.getEmailsResult with s | s
        · simp only [handle_greeting_mode, hG, hk, if_true, hC, hE]
          decide
        · simp only [handle_greeting_mode, hG, hk, if_true, hC, hE]
          exact show ("start_email_reading" : String) ∈ actionEnum by decide
    | false =>
      simp [handle_greeting_mode, hG, hk, actionEnum]

theorem email_reading_action_ok (env : Env) (st : ConvState) (u : String)
    (d : Directive) (h : (handle_email_reading_mode env st u).2.1 = Except.ok d) :
    d.action ∈ actionEnum := by
  cases hresp : (strContains (pyLower u) "respond" || strContains (pyLower u) "reply") with
  | true =>
    rcases hC : env.currentEmailResult with e | cur
    · simp [handle_email_reading_mode, hresp, hC] at h
    · cases hs : cur.success with
      | true =>
        rcases hE : cur.email with _ | em
        · simp [handle_email_reading_mode, hresp, hC, hs, hE] at h
        · simp [handle_email_reading_mode, hresp, hC, hs, hE] at h
          subst h
          decide
      | false =>
        simp [handle_email_reading_mode, hresp, hC, hs] at h
        subst h
        decide
  | false =>
    cases hnext : anyKeyword (pyLower u) nextKeywords with
    | true =>
      rcases hN : env.nextResult with e | s
      · simp [handle_email_reading_mode, hresp, hnext, hN] at h
      · cases hNo : strContains s "No more emails" with
        | true =>
          simp [handle_email_reading_mode, hresp, hnext, hN, hNo] at h
          subst h
          decide
        | false =>
          simp [handle_email_reading_mode, hresp, hnext, hN, hNo] at h
          subst h
          exact show ("read_next_email" : String) ∈ actionEnum by decide
    | false =>
      cases hstop : anyKeyword (pyLower u) stopKeywords with
      | true =>
        simp [handle_email_reading_mode, hresp, hnext, hstop] at h
        subst h
        decide
      | false =>
        simp [handle_email_reading_mode, hresp, hnext, hstop] at h
        subst h
        decide

theorem responding_action_ok (env : Env) (st : ConvState) (u : String) :
    (handle_responding_mode env st u).2.1.action ∈ actionEnum := by
  rcases hR : st.responding_to with _ | target
  · simp only [handle_responding_mode, hR]
    decide
  · rcases hC : env.composeLLM with c | c
    · simp only [handle_responding_mode, hR, hC]
      decide
    · rcases hS : env.sendReplyResult with r | r
      · simp only [handle_responding_mode, hR, hC, hS]
        exact show ("continue_reading" : String) ∈ actionEnum by decide
      · simp only [handle_responding_mode, hR, hC, hS]
        exact show ("continue_reading" : String) ∈ actionEnum by decide

theorem general_action_ok (env : Env) (st : ConvState) (u : String)
    (d : Directive) (h : (handle_general_mode env st u).2.1 = Except.ok d) :
    d.action ∈ actionEnum := by
  cases hk : anyKeyword (pyLower u) emailKeywords with
  | true =>
    simp [handle_general_mode, hk] at h
    subst h
    exact greeting_action_ok env _ u
  | false =>
    cases hck : anyKeyword (pyLower u) calendarKeywords with
    | true =>
      rcases hC : env.calendarResult with e | c
      · simp [handle_general_mode, hk, hck, hC] at h
      · simp [handle_general_mode, hk, hck, hC] at h
        subst h
        exact show ("continue" : String) ∈ actionEnum by decide
    | false =>
      cases htk : anyKeyword (pyLower u) taskKeywords with
      | true =>
        simp [handle_general_mode, hk, hck, htk] at h
        subst h
        decide
      | false =>
        cases hfk : anyKeyword (pyLower u) farewellKeywords with
        | true =>
          simp [handle_general_mode, hk, hck, htk, hfk] at h
          subst h
          decide
        | false =>
          rcases hG2 : env.generalLLM with e | t
          · simp [handle_general_mode, hk, hck, htk, hfk, hG2] at h
            subst h
            decide
          · simp [handle_general_mode, hk, hck, htk, hfk, hG2] at h
            subst h
            exact show ("continue" : String) ∈ actionEnum by decide

theorem dispatch_action_ok (env : Env) (st : ConvState) (u : String)
    (d : Directive) (h : (dispatch_mode env st u).2.1 = Except.ok d) :
    d.action ∈ actionEnum := by
  by_cases h1 : st.mode = "greeting"
  · simp [dispatch_mode, h1] at h
    subst h
    exact greeting_action_ok env st u
  · by_cases h2 : st.mode = "email_reading"
    · simp [dispatch_mode, h1, h2] at h
      exact email_reading_action_ok env st u d h
    · by_cases h3 : st.mode = "responding"
      · simp [dispatch_mode, h1, h2, h3] at h
        subst h
        exact responding_action_ok env st u
      · simp [dispatch_mode, h1, h2, h3] at h
        exact general_action_ok env st u d h

/-- C1 (amended): for every turn environment (any combination of collaborator
successes, errors or arbitrary returned text, empty ones included), state and
utterance, `process_user_input` returns a directive — no exception escapes,
the function being total with the top-level except folded in — whose action
lies in the closed enum, unconditionally; its tts_text is non-empty provided
the collaborator texts that are echoed verbatim as the whole response (the
greeting and general generative replies and the calendar result) are
non-empty. -/
theorem process_user_input_total (env : Env) (st : ConvState) (u : String) :
    (process_user_input env st u).2.1.action ∈ actionEnum ∧
    ((∀ s, env.greetingLLM = Except.ok s → s ≠ "") →
     (∀ s, env.generalLLM = Except.ok s → s ≠ "") →
     (∀ s, env.calendarResult = Except.ok s → s ≠ "") →
     (process_user_input env st u).2.1.tts_text ≠ "") := by
  constructor
  · rcases hr : (dispatch_mode env { st with history := st.history ++ [("user", u)] } u).2.1
      with e | d
    · simp [process_user_input, hr, errorDirective, actionEnum]
    · have h2 := dispatch_action_ok env _ u d hr
      simpa [process_user_input, hr] using h2
  · intro hg hgen hcal
    rcases hr : (dispatch_mode env { st with history := st.history ++ [("user", u)] } u).2.1
      with e | d
    · simp [process_user_input, hr, errorDirective]
    · have h2 := dispatch_directive_ok env _ u d hg hgen hcal hr
      simpa [process_user_input, hr] using h2.1

/-- Witness for C1 at a concrete input: greeting mode, utterance "hello",
all collaborators returning non-empty text. -/
theorem process_user_input_total_witness :
    (process_user_input sampleEnv initialConvState "hello").2.1.action ∈ actionEnum ∧
    (process_user_input sampleEnv initialConvState "hello").2.1.tts_text ≠ "" :=
  ⟨(process_user_input_total sampleEnv initialConvState "hello").1,
   (process_user_input_total sampleEnv initialConvState "hello").2
     (fun s h => by simp [sampleEnv] at h; subst h; decide)
     (fun s h => by simp [sampleEnv] at h; subst h; decide)
     (fun s h => by simp [sampleEnv] at h; subst h; decide)⟩

/-- Counterexample to C1 as stated: in the (initial, hence reachable)
greeting mode with utterance "hello", if the greeting OpenAI call returns the
empty string, the directive's tts_text is empty. -/
theorem process_user_input_total_counterexample :
    (process_user_input { sampleEnv with greetingLLM := .ok "" }
        initialConvState "hello").2.1.tts_text = "" := by decide

/-- C6: in General mode, for an utterance matching none of the email,
calendar, task or farewell keyword lists, a raising or timed-out generative
call still yields the fixed hard-coded non-empty tts_text and action
continue. -/
theorem general_fallback_resilient (env : Env) (st : ConvState) (u : String) (e : String)
    (h1 : st.mode = "general")
    (h2 : anyKeyword (pyLower u) emailKeywords = false)
    (h3 : anyKeyword (pyLower u) calendarKeywords = false)
    (h4 : anyKeyword (pyLower u) taskKeywords = false)
    (h5 : anyKeyword (pyLower u) farewellKeywords = false)
    (h6 : env.generalLLM = Except.error e) :
    (process_user_input env st u).2.1.tts_text = generalFallbackText ∧
    (process_user_input env st u).2.1.action = "continue" ∧
    generalFallbackText ≠ "" := by
  refine ⟨?_, ?_, by decide⟩ <;>
    simp [process_user_input, dispatch_mode, handle_general_mode, h1, h2, h3, h4, h5, h6,
          mkDirective]

/-- Witness for C6 at a concrete input. -/
theorem general_fallback_resilient_witness :
    (process_user_input { sampleEnv with generalLLM := .error "timeout" }
        generalState "how are you").2.1.tts_text = generalFallbackText ∧
    (process_user_input { sampleEnv with generalLLM := .error "timeout" }
        generalState "how are you").2.1.action = "continue" ∧
    generalFallbackText ≠ "" :=
  general_fallback_resilient _ generalState "how are you" "timeout" rfl
    (by decide) (by decide) (by decide) (by decide) rfl

/-- C2 (amended): for every utterance supplied in Responding mode with a
stored reply target, when the generative compose call succeeds with text c,
exactly one send_email_reply is issued — recipient the target's sender,
subject "Re: " plus the target's subject, and body c, the composed text
rather than the utterance verbatim — the mode transitions back to
EmailReading, and the responding_to marker is left in place, not cleared. -/
theorem responding_sends_composed (env : Env) (st : ConvState) (u : String)
    (e : EmailRec) (c : String)
    (h1 : st.mode = "responding") (h2 : st.responding_to = some e)
    (h3 : env.composeLLM = Except.ok c) :
    (process_user_input env st u).2.2
        = [MCall.sendReply e.sender ("Re: " ++ e.subject) c] ∧
    (process_user_input env st u).1.mode = "email_reading" ∧
    (process_user_input env st u).1.responding_to = some e := by
  rcases hS : env.sendReplyResult with r | r <;>
    refine ⟨?_, ?_, ?_⟩ <;>
      simp [process_user_input, dispatch_mode, handle_responding_mode, h1, h2, h3, hS]

/-- Witness for C2 (amended) at a concrete input. -/
theorem responding_sends_composed_witness :
    (process_user_input sampleEnv respondingState "Tell them thanks").2.2
        = [MCall.sendReply sampleEmail.sender ("Re: " ++ sampleEmail.subject)
             "Composed professional reply"] ∧
    (process_user_input sampleEnv respondingState "Tell them thanks").1.mode
        = "email_reading" ∧
    (process_user_input sampleEnv respondingState "Tell them thanks").1.responding_to
        = some sampleEmail :=
  responding_sends_composed sampleEnv respondingState "Tell them thanks" sampleEmail
    "Composed professional reply" rfl rfl rfl

/-- Counterexample to C2 as stated: with the composed text differing from the
utterance "Tell them I'll be late", the send_email_reply issued does not
carry the utterance verbatim as body, and responding_to is not cleared from
the context. -/
theorem responding_sends_composed_counterexample :
    (process_user_input sampleEnv respondingState "Tell them I'll be late").2.2
        ≠ [MCall.sendReply "alice@example.com" "Re: Meeting" "Tell them I'll be late"] ∧
    (process_user_input sampleEnv respondingState "Tell them I'll be late").1.responding_to
        ≠ none := by decide

/-- C3 (amended): from Greeting mode, an utterance containing an email
keyword transitions the mode to EmailReading and issues exactly the mailbox
calls initialize_creds then get_emails, with the returned summary embedded in
the response text and action start_email_reading — provided the generative
intent call returns (on its failure the handler short-circuits to the canned
greeting fallback with no mailbox call and no mode change) and the mailbox
calls return in band. -/
theorem greeting_email_intent (env : Env) (st : ConvState) (u : String)
    (a c s : String)
    (h1 : st.mode = "greeting")
    (h2 : anyKeyword (pyLower u) emailKeywords = true)
    (h3 : env.greetingLLM = Except.ok a)
    (h4 : env.credResult = Except.ok c)
    (h5 : env.getEmailsResult = Except.ok s) :
    (process_user_input env st u).1.mode = "email_reading" ∧
    (process_user_input env st u).2.2 = [MCall.initCreds, MCall.getEmails] ∧
    (process_user_input env st u).2.1.response_text
        = "Sure! Let me check your emails. " ++ s ++ ". I'll start reading them one by one. You can say 'respond' during any email if you'd like to reply to it." ∧
    (process_user_input env st u).2.1.action = "start_email_reading" := by
  refine ⟨?_, ?_, ?_, ?_⟩ <;>
    simp [process_user_input, dispatch_mode, handle_greeting_mode, h1, h2, h3, h4, h5]

/-- Witness for C3 (amended) at a concrete input. -/
theorem greeting_email_intent_witness :
    (process_user_input sampleEnv initialConvState "read my emails").1.mode
        = "email_reading" ∧
    (process_user_input sampleEnv initialConvState "read my emails").2.2
        = [MCall.initCreds, MCall.getEmails] ∧
    (process_user_input sampleEnv initialConvState "read my emails").2.1.response_text
        = "Sure! Let me check your emails. " ++ "Found 2 emails" ++ ". I'll start reading them one by one. You can say 'respond' during any email if you'd like to reply to it." ∧
    (process_user_input sampleEnv initialConvState "read my emails").2.1.action
        = "start_email_reading" :=
  greeting_email_intent sampleEnv initialConvState "read my emails"
    "Happy to help!" "creds ok" "Found 2 emails" rfl (by decide) rfl rfl rfl

/-- Counterexample to C3 as stated ("regardless of whether the generative
collaborator call succeeds or fails"): greeting mode, utterance "email", the
generative call raising — no mailbox call is made at all (no get_emails, no
initialize_creds) and the mode does not become EmailReading. -/
theorem greeting_email_intent_counterexample :
    (process_user_input { sampleEnv with greetingLLM := .error "OpenAI down" }
        initialConvState "email").2.2 = [] ∧
    (process_user_input { sampleEnv with greetingLLM := .error "OpenAI down" }
        initialConvState "email").1.mode ≠ "email_reading" := by decide

/-- C4 (amended): in EmailReading mode, an utterance matching none of the
handler's keyword classes — respond/reply, next/skip/continue,
stop/done/enough — such as the read-confirmation "yes, read it", keeps the
mode EmailReading, issues no mailbox call at all (in particular no
read_full_current_email: the conversation layer has no read-full branch),
and returns the fixed re-offer-the-menu directive with action
continue_reading.  The ordered checks are respond/reply first, then
next/skip/continue, then stop/done/enough. -/
theorem email_reading_default_prompt (env : Env) (st : ConvState) (u : String)
    (h1 : st.mode = "email_reading")
    (h2 : strContains (pyLower u) "respond" = false)
    (h3 : strContains (pyLower u) "reply" = false)
    (h4 : anyKeyword (pyLower u) nextKeywords = false)
    (h5 : anyKeyword (pyLower u) stopKeywords = false) :
    (process_user_input env st u).1.mode = "email_reading" ∧
    (process_user_input env st u).2.2 = [] ∧
    (process_user_input env st u).2.1
        = mkDirective "I'll continue reading. Say 'next' to skip to the next email, or 'respond' if you'd like to reply to this one." "continue_reading" := by
  refine ⟨?_, ?_, ?_⟩ <;>
    simp [process_user_input, dispatch_mode, handle_email_reading_mode, h1, h2, h3, h4, h5,
          mkDirective]

/-- Witness for C4 (amended) at the concrete utterance "yes, read it". -/
theorem email_reading_default_prompt_witness :
    (process_user_input sampleEnv emailReadingState "yes, read it").1.mode
        = "email_reading" ∧
    (process_user_input sampleEnv emailReadingState "yes, read it").2.2 = [] ∧
    (process_user_input sampleEnv emailReadingState "yes, read it").2.1
        = mkDirective "I'll continue reading. Say 'next' to skip to the next email, or 'respond' if you'd like to reply to this one." "continue_reading" :=
  email_reading_default_prompt sampleEnv emailReadingState "yes, read it"
    rfl (by decide) (by decide) (by decide) (by decide)

/-- Counterexample to C4 as stated: on "yes, read it" in EmailReading mode
the turn issues no mailbox call whatsoever — in particular not one
read_full_current_email call — falling through every keyword branch to the
default prompt. -/
theorem email_reading_default_prompt_counterexample :
    (process_user_input sampleEnv emailReadingState "yes, read it").2.2 = [] ∧
    (process_user_input sampleEnv emailReadingState "yes, read it").2.1.action
        = "continue_reading" := by decide

/-- C5 (amended): in EmailReading mode, an advance-intent utterance
(containing "next", "skip" or "continue") that does not also contain a
respond/reply keyword — those are checked first — triggers exactly one
next_email call; when the returned text reports no more emails the mode
transitions to General, otherwise the mode stays EmailReading and the
directive's action is read_next_email. -/
theorem email_reading_advance (env : Env) (st : ConvState) (u : String) (s : String)
    (h1 : st.mode = "email_reading")
    (h2 : strContains (pyLower u) "respond" = false)
    (h3 : strContains (pyLower u) "reply" = false)
    (h4 : anyKeyword (pyLower u) nextKeywords = true)
    (h5 : env.nextResult = Except.ok s) :
    (process_user_input env st u).2.2 = [MCall.nextEmail] ∧
    (strContains s "No more emails" = true →
       (process_user_input env st u).1.mode = "general") ∧
    (strContains s "No more emails" = false →
       (process_user_input env st u).1.mode = "email_reading" ∧
       (process_user_input env st u).2.1.action = "read_next_email") := by
  cases hNo : strContains s "No more emails" with
  | true =>
    refine ⟨?_, fun _ => ?_, fun hf => by simp [hNo] at hf⟩ <;>
      simp [process_user_input, dispatch_mode, handle_email_reading_mode,
            h1, h2, h3, h4, h5, hNo]
  | false =>
    refine ⟨?_, fun ht => by simp [hNo] at ht, fun _ => ⟨?_, ?_⟩⟩ <;>
      simp [process_user_input, dispatch_mode, handle_email_reading_mode,
            h1, h2, h3, h4, h5, hNo, mkDirective]

/-- Witness for C5 (amended) at the concrete utterance "next" with more
emails remaining. -/
theorem email_reading_advance_witness :
    (process_user_input sampleEnv emailReadingState "next").2.2 = [MCall.nextEmail] ∧
    (strContains "Moved to email 2 of 5" "No more emails" = true →
       (process_user_input sampleEnv emailReadingState "next").1.mode = "general") ∧
    (strContains "Moved to email 2 of 5" "No more emails" = false →
       (process_user_input sampleEnv emailReadingState "next").1.mode = "email_reading" ∧
       (process_user_input sampleEnv emailReadingState "next").2.1.action
           = "read_next_email") :=
  email_reading_advance sampleEnv emailReadingState "next" "Moved to email 2 of 5"
    rfl (by decide) (by decide) (by decide) rfl

/-- Counterexample to C5 as stated: "reply to the next one" contains the
advance keyword "next", yet the respond/reply branch is checked first, so the
turn makes no next_email call. -/
theorem email_reading_advance_counterexample :
    strContains (pyLower "reply to the next one") "next" = true ∧
    MCall.nextEmail ∉
      (process_user_input sampleEnv emailReadingState "reply to the next one").2.2 := by
  decide

theorem gcr_preserves (uid : String) (s : MCPSession) :
    (get_current_email_for_reading_impl uid s).1 = s := by
  rcases h : s.gmail_emails with _ | es
  · simp [get_current_email_for_reading_impl, h]
  · cases es with
    | nil => simp [get_current_email_for_reading_impl, h]
    | cons a l =>
      simp only [get_current_email_for_reading_impl, h]
      split <;> rfl

theorem read_full_preserves (uid : String) (s : MCPSession) :
    (read_full_current_email_impl uid s).1 = s := by
  rcases h : s.gmail_emails with _ | es
  · simp [read_full_current_email_impl, h]
  · cases es with
    | nil => simp [read_full_current_email_impl, h]
    | cons a l =>
      simp only [read_full_current_email_impl, h]
      split
      · split <;> rfl
      · rfl

/-- C7: the session registry maps each call sid to exactly one conversation
state: get-or-create is idempotent and the created session is found on
re-lookup; a turn's mutation of the session is what the registry holds for
that sid afterwards (reference semantics, visible to the next turn); after
destruction on a terminal call status, a subsequent turn for that sid is the
session-miss outcome that restarts the greeting flow — a total function,
never a crash. -/
theorem session_registry_lifecycle (reg : Registry) (sid : String) (env : Env)
    (u : String) (status : String) :
    (handle_greeting_registry (handle_greeting_registry reg sid) sid
        = handle_greeting_registry reg sid) ∧
    ((handle_greeting_registry reg sid) sid).isSome ∧
    (∀ st, reg sid = some st →
       (vh_process_user_input env reg sid u).1 sid
           = some (process_user_input env st u).1) ∧
    (status ∈ terminalStatuses →
       (handle_call_status reg sid status) sid = none ∧
       vh_process_user_input env (handle_call_status reg sid status) sid u
           = (handle_call_status reg sid status, VHOutcome.sessionMiss)) := by
  refine ⟨?_, ?_, ?_, ?_⟩
  · rcases h : reg sid with _ | st
    · simp [handle_greeting_registry, h, registryInsert]
    · simp [handle_greeting_registry, h]
  · rcases h : reg sid with _ | st
    · simp [handle_greeting_registry, h, registryInsert]
    · simp [handle_greeting_registry, h]
  · intro st h
    simp [vh_process_user_input, h, registryInsert]
  · intro hterm
    rcases h : reg sid with _ | st
    · have hcs : handle_call_status reg sid status = reg := by
        simp [handle_call_status, h]
      refine ⟨?_, ?_⟩ <;> simp [hcs, vh_process_user_input, h]
    · have hcs : handle_call_status reg sid status = registryRemove reg sid := by
        simp [handle_call_status, h, hterm]
      refine ⟨?_, ?_⟩ <;> simp [hcs, vh_process_user_input, registryRemove]

/-- Witness for C7 at a concrete registry holding session "abc": destruction
on status "completed" leads a following turn to the session miss, and a
turn's mutated state is what the registry then holds. -/
theorem session_registry_lifecycle_witness :
    ((handle_call_status reg1 "abc" "completed") "abc" = none ∧
     vh_process_user_input sampleEnv (handle_call_status reg1 "abc" "completed") "abc" "hi"
        = (handle_call_status reg1 "abc" "completed", VHOutcome.sessionMiss)) ∧
    (vh_process_user_input sampleEnv reg1 "abc" "hi").1 "abc"
        = some (process_user_input sampleEnv initialConvState "hi").1 :=
  ⟨(session_registry_lifecycle reg1 "abc" sampleEnv "hi" "completed").2.2.2 (by decide),
   (session_registry_lifecycle reg1 "abc" sampleEnv "hi" "completed").2.2.1
     initialConvState (by decide)⟩

/-- C8: the per-user mailbox cursor is non-decreasing under every tool other
than get_emails (next_email, the only mutator among them, increments it by
exactly one when a listing is loaded), and a successful get_emails — with
credentials present and a non-empty analyzed listing — stores the fresh
listing and resets the cursor to 0. -/
theorem cursor_monotone (t : MCPTool) (o : MCPOracle) (uid : String) (s : MCPSession) :
    (t ≠ MCPTool.getEmails →
       s.current_email_index ≤ (mcpStep t o uid s).1.current_email_index) ∧
    (∀ es, s.gmail_emails = some es → es ≠ [] →
       (mcpStep MCPTool.nextEmail o uid s).1.current_email_index
           = s.current_email_index + 1) ∧
    (∀ es, s.gmail_assistant = true → o.analyzed = Except.ok es → es ≠ [] →
       (mcpStep MCPTool.getEmails o uid s).1.current_email_index = 0 ∧
       (mcpStep MCPTool.getEmails o uid s).1.gmail_emails = some es) := by
  refine ⟨?_, ?_, ?_⟩
  · intro ht
    cases t with
    | initCreds =>
      rcases ho : o.assistantInit with e | v <;>
        simp [mcpStep, initialize_creds_impl, ho]
    | getEmails => exact absurd rfl ht
    | getCurrentReading => rw [mcpStep, gcr_preserves]
    | readFull => rw [mcpStep, read_full_preserves]
    | nextEmail =>
      rcases h : s.gmail_emails with _ | es
      · simp [mcpStep, next_email_impl, h]
      · cases es with
        | nil => simp [mcpStep, next_email_impl, h]
        | cons a l =>
          simp only [mcpStep, next_email_impl, h]
          split <;> exact Nat.le_succ _
    | sendReply r su b =>
      rcases ha : s.gmail_assistant <;> simp [mcpStep, send_email_reply_impl, ha]
    | calendar d => simp [mcpStep, get_calendar_events_impl]
    | createTask ti d => simp [mcpStep, create_task_impl]
  · intro es h hne
    cases es with
    | nil => exact absurd rfl hne
    | cons a l =>
      simp only [mcpStep, next_email_impl, h]
      split <;> rfl
  · intro es ha ho hne
    cases es with
    | nil => exact absurd rfl hne
    | cons a l =>
      refine ⟨?_, ?_⟩ <;> simp [mcpStep, get_emails_impl, ha, ho]

/-- Witness for C8 at a concrete loaded session: a read-full step does not
lower the cursor, next_email increments it by one, get_emails resets it to 0
and stores the fresh listing. -/
theorem cursor_monotone_witness :
    (mcpLoaded.current_email_index
        ≤ (mcpStep MCPTool.readFull mcpOracle1 "u" mcpLoaded).1.current_email_index) ∧
    (mcpStep MCPTool.nextEmail mcpOracle1 "u" mcpLoaded).1.current_email_index
        = mcpLoaded.current_email_index + 1 ∧
    ((mcpStep MCPTool.getEmails mcpOracle1 "u" mcpLoaded).1.current_email_index = 0 ∧
     (mcpStep MCPTool.getEmails mcpOracle1 "u" mcpLoaded).1.gmail_emails = some mcpEmails) :=
  ⟨(cursor_monotone MCPTool.readFull mcpOracle1 "u" mcpLoaded).1 (by decide),
   (cursor_monotone MCPTool.nextEmail mcpOracle1 "u" mcpLoaded).2.1 mcpEmails rfl
     (by decide),
   (cursor_monotone MCPTool.getEmails mcpOracle1 "u" mcpLoaded).2.2 mcpEmails rfl rfl
     (by decide)⟩

/-- C10: for a loaded mailbox session with the cursor on a valid email,
read_full_current_email returns the first at-most-1200 characters of the body
followed by the fixed prompt — the continues notice when the body exceeds
1200 characters, the standard respond-or-next prompt otherwise — silently
truncating longer bodies, and leaves the session unchanged. -/
theorem read_full_truncates (uid : String) (s : MCPSession) (es : List AnalyzedEmail)
    (e : AnalyzedEmail)
    (hes : s.gmail_emails = some es)
    (h : s.current_email_index < es.length)
    (he : es.get ⟨s.current_email_index, h⟩ = e) :
    (read_full_current_email_impl uid s).2
        = pySlice1200 e.body ++
            (if e.body.length > 1200 then
              " ... email content continues. Say 'respond' to reply or 'next' for the next email."
            else " Say 'respond' to reply to this email or 'next' for the next email.") ∧
    (pySlice1200 e.body).length ≤ 1200 ∧
    (read_full_current_email_impl uid s).1 = s := by
  have hlen : (pySlice1200 e.body).length ≤ 1200 := by
    show (e.body.data.take 1200).length ≤ 1200
    rw [List.length_take]
    exact min_le_left _ _
  refine ⟨?_, hlen, read_full_preserves uid s⟩
  subst he
  cases es with
  | nil => simp at h
  | cons a l =>
    simp only [read_full_current_email_impl, hes]
    rw [dif_pos h]
    split <;> rfl

/-- Witness for C10 at a concrete session whose current email body is
shorter than 1200 characters. -/
theorem read_full_truncates_witness :
    (read_full_current_email_impl "u" mcpLoaded).2
        = pySlice1200 "short body" ++
            (if ("short body" : String).length > 1200 then
              " ... email content continues. Say 'respond' to reply or 'next' for the next email."
            else " Say 'respond' to reply to this email or 'next' for the next email.") ∧
    (pySlice1200 "short body").length ≤ 1200 ∧
    (read_full_current_email_impl "u" mcpLoaded).1 = mcpLoaded :=
  read_full_truncates "u" mcpLoaded mcpEmails
    { sender := "alice <a@x.com>", subject := "Meeting", body := "short body",
      importance_level := "HIGH" }
    rfl (by decide) rfl

end GmailAssistant
